import Mathlib

/-!
Verification of the dyndao persistence core against its specification.

This file shallowly embeds the Oracle SQL-generator (`oraclegen`:
`setPKifNeeded`, `coreBindingInsert`, `countNils`, `removeNils`,
`removeNilsIfNeeded`, `BindingInsert`, `renderBindingInsertValue`,
`renderInsertValue`, `quotedString`), the ORM side (`prepareAndExecSQL`,
`Delete`, `Transact`) and the pieces of the `schema` package they use.

Modelling conventions:
- Go `map[string]interface{}` values become association lists
  `List (String × GoVal)`; a single list order models one traversal order of
  the (unordered) Go map.  Where the distinction matters, theorems carry a
  `Nodup` hypothesis on the keys.
- Go `interface{}` values become the closed union `GoVal`, with one
  constructor per runtime type the source dispatches on, plus `goNil` for the
  nil interface and `other` for every remaining runtime type (`other` carries
  the `fmt` `%v` rendering of the value, which is all the source ever uses of
  such values).
- Go panics (explicit `panic(...)` calls and nil-pointer dereferences) are
  modelled as `Except.error (GenFailure.panicked msg)`; ordinary non-nil error
  returns as `Except.error (GenFailure.errReturn msg)`.
- `float64` payloads are carried as exact rationals (every finite double is a
  rational).  Go's `int64(f)` conversion is modelled as truncation toward
  zero (exact for every in-range double; out-of-range conversions are
  implementation-defined in Go and do not occur in any theorem below), and
  `fmt.Sprintf("%f", f)` as fixed six-decimal rendering with round-half-even.
-/

namespace Dyndao

/-- Digit-list worker with a structural fuel argument (any fuel above the
digit count yields the full digit list; `decDigits` supplies `n + 1`, always
enough since a number has at most as many decimal digits as its value). -/
def decDigitsAux : Nat → Nat → List Char
  | 0, _ => []
  | fuel + 1, n =>
    if n < 10 then [Nat.digitChar n]
    else decDigitsAux fuel (n / 10) ++ [Nat.digitChar (n % 10)]

/-- A decimal digit list for a natural number, most significant digit first.
Models the decimal text rendering used by Go's `fmt` verbs `%d`/`%f`. -/
def decDigits (n : Nat) : List Char := decDigitsAux (n + 1) n

/-- Decimal text of a natural number (Go `%d` on unsigned values). -/
def natDecStr (n : Nat) : String := String.mk (decDigits n)

/-- Truncation toward zero of a rational, as Go's `int64(float64)` conversion
behaves for every in-range value. -/
def goTrunc (q : ℚ) : Int :=
  if q < 0 then -(((-q.num).toNat / q.den : Nat) : Int)
  else ((q.num.toNat / q.den : Nat) : Int)

/-- Floor of a rational as an integer, computed from numerator and
denominator. -/
def ratFloor (q : ℚ) : Int := Int.fdiv q.num (q.den : Int)

/-- Round to the nearest integer, ties to even — the rounding Go's `strconv`
(and hence `fmt` `%f`) applies to the decimal digits of a float. -/
def roundHalfEven (x : ℚ) : Int :=
  let f : Int := ratFloor x
  let r : ℚ := x - (f : ℚ)
  if r < 1/2 then f
  else if 1/2 < r then f + 1
  else if f % 2 = 0 then f else f + 1

/-- Left-pad a digit list with zeros to width six. -/
def padZeros6 (l : List Char) : List Char :=
  List.replicate (6 - l.length) '0' ++ l

/-- Go's `fmt.Sprintf("%f", x)`: fixed (non-scientific) decimal text with
exactly six fractional digits. -/
def formatFixed6 (q : ℚ) : String :=
  let m : Nat := (roundHalfEven (|q| * 1000000)).toNat
  let ip := m / 1000000
  let fp := m % 1000000
  String.mk ((if q < 0 then ['-'] else []) ++ decDigits ip ++ ['.'] ++ padZeros6 (decDigits fp))

/-- A string is in fixed decimal shape: digits, a decimal point, an optional
sign — in particular no scientific-notation exponent marker. -/
def fixedShape (s : String) : Bool :=
  s.toList.all fun c => c.isDigit || c == '.' || c == '-'

/-- The runtime value union stored in a dyndao value map
(`map[string]interface{}`).  One constructor per runtime type that
`renderInsertValue` / `coreBindingInsert` dispatch on; `sqlValuePtr` is
`*object.SqlValue` and `sqlValueVal` is `object.SqlValue` (the Go type switch
distinguishes them); `goNil` is the nil interface value; `other desc` is any
other runtime type, carrying its `%v` rendering. -/
inductive GoVal where
  | str (s : String)
  | i32 (n : Int)
  | int (n : Int)
  | i64 (n : Int)
  | u64 (n : Nat)
  | f64 (q : ℚ)
  | sqlValuePtr (s : String)
  | sqlValueVal (s : String)
  | goNil
  | other (desc : String)
deriving DecidableEq

/-- Go's `string(n)` conversion from an integer: the UTF-8 text of the code
point, or the replacement character for out-of-range/surrogate values. -/
def goRuneString (n : Int) : String :=
  if 0 ≤ n ∧ (n.toNat < 0xd800 ∨ (0xdfff < n.toNat ∧ n.toNat < 0x110000)) then
    String.mk [Char.ofNat n.toNat]
  else "�"

/-- The `%v` rendering of a `GoVal`, used only inside panic/error message
text.  Exact for strings and integers; for `sqlValuePtr`/`sqlValueVal` it is
the wrapped text (`object.SqlValue` implements `String()`, see
`renderInsertValue`); the `f64` case abbreviates Go's shortest-form float
rendering by fixed rendering (no message-bearing claim touches that case). -/
def goVShow : GoVal → String
  | .str s => s
  | .i32 n => if n < 0 then "-" ++ natDecStr (-n).toNat else natDecStr n.toNat
  | .int n => if n < 0 then "-" ++ natDecStr (-n).toNat else natDecStr n.toNat
  | .i64 n => if n < 0 then "-" ++ natDecStr (-n).toNat else natDecStr n.toNat
  | .u64 n => natDecStr n
  | .f64 q => formatFixed6 q
  | .sqlValuePtr s => s
  | .sqlValueVal s => s
  | .goNil => "<nil>"
  | .other d => d

/-- `schema.Field` (referenced by the generator as `schTable.Fields`; the
struct itself is not among the analysed sources — the two members the
generator reads, `Name` and `IsNumber`, are taken from its use sites and from
the spec's column metadata). -/
structure Field where
  Name : String
  IsNumber : Bool
deriving DecidableEq

/-- Association-list lookup, modelling Go map indexing `m[k]`. -/
def alookup (k : String) : List (String × α) → Option α
  | [] => none
  | (k2, v) :: t => if k2 = k then some v else alookup k t

/-- A value the generator hands to the database driver as one bind argument:
the Go code produces either a string or a (signed) integer. -/
inductive BindVal where
  | str (s : String)
  | int (n : Int)
deriving DecidableEq

/-- Outcome of `renderInsertValue`: an ordinary error return, or a nil
`*schema.Field` dereference (a runtime panic at the use site). -/
inductive RErr where
  | goErr (msg : String)
  | nilPanic
deriving DecidableEq

/-- The Go runtime's message for a nil-pointer dereference panic. -/
def nilDerefMsg : String := "runtime error: invalid memory address or nil pointer dereference"

/-- `renderInsertValue` from the source: per-runtime-type rendering of one
value-map entry into a bind argument.  `f` is the (possibly nil)
`*schema.Field`; dereferencing it when nil is `RErr.nilPanic`.
`object.SqlValue.String()` is not among the analysed sources; modelled from
the spec ("always emitted verbatim"): it returns the wrapped literal text. -/
def renderInsertValue (f : Option Field) (value : GoVal) : Except RErr BindVal :=
  match value with
  | .str s => .ok (.str s)
  | .i32 n => .ok (.str (goRuneString n))
  | .int n => .ok (.int n)
  | .i64 n => .ok (.int n)
  | .u64 n => .ok (.str (natDecStr n))
  | .f64 q =>
    match f with
    | none => .error .nilPanic
    | some fl => if fl.IsNumber then .ok (.int (goTrunc q)) else .ok (.str (formatFixed6 q))
  | .sqlValuePtr s => .ok (.str s)
  | .sqlValueVal s => .ok (.str s)
  | .goNil =>
    match f with
    | none => .error .nilPanic
    | some fl =>
      .error (.goErr ("renderInsertValue: unknown type " ++ goVShow .goNil ++ " for the value of " ++ fl.Name))
  | .other d =>
    match f with
    | none => .error .nilPanic
    | some fl =>
      .error (.goErr ("renderInsertValue: unknown type " ++ d ++ " for the value of " ++ fl.Name))

/-- `renderBindingInsertValue` from the source: the named-placeholder token
for a field. -/
def renderBindingInsertValue (f : Field) : String := ":" ++ f.Name

/-- `quotedString` from the source: wraps a value in double quotes (the
generator's parameter-quoting helper). -/
def quotedString (value : String) : String := "\x22" ++ value ++ "\x22"

/-- `schema.Table`: the members the insert generator reads (`Name`,
`Primary`, `Fields`).  `Fields` is nil-able (`BindingInsert` checks it). -/
structure Table where
  Name : String
  Primary : String
  Fields : Option (List (String × Field))
deriving DecidableEq

/-- `schema.Schema`: the `Tables` map. -/
structure Schema where
  Tables : List (String × Table)
deriving DecidableEq

/-- `schema.GetTableName` from the source. -/
def GetTableName (override ourDefault : String) : String :=
  if override ≠ "" then override else ourDefault

/-- `oraclegen.Generator`: the one member the insert path reads. -/
structure Generator where
  CallerSuppliesPK : Bool
deriving DecidableEq

/-- Failure of insert generation: an ordinary non-nil `error` return value,
or a runtime panic (explicit `panic(...)` or nil dereference). -/
inductive GenFailure where
  | errReturn (msg : String)
  | panicked (msg : String)
deriving DecidableEq

/-- `setPKifNeeded` from the source: under `CallerSuppliesPK`, if the
identity column is absent from the value map, insert
`object.NewSqlValue("SYS_GUID()")` for it (an in-place mutation of the
caller's map; list append models the map insertion). -/
def setPKifNeeded (g : Generator) (data : List (String × GoVal)) (identityCol : String) :
    List (String × GoVal) :=
  if g.CallerSuppliesPK = true ∧ alookup identityCol data = none then
    data ++ [(identityCol, .sqlValuePtr "SYS_GUID()")]
  else data

/-- The identity-column type switch at the top of `coreBindingInsert`'s loop
body: under `CallerSuppliesPK`, on the identity column, an `int64` renders via
Go's `string(int64)` rune conversion, a `string` passes through, a
`*object.SqlValue` substitutes its literal text and nils out the bind value
(`v = nil`), and every other runtime type panics.  Returns the pair `(r, v)`
the rest of the loop body uses. -/
def identityStep (g : Generator) (identityCol k : String) (v : GoVal) :
    Except GenFailure (String × GoVal) :=
  if g.CallerSuppliesPK = true ∧ k = identityCol then
    match v with
    | .i64 n => .ok (goRuneString n, .i64 n)
    | .str s => .ok (s, .str s)
    | .sqlValuePtr s => .ok (s, .goNil)
    | w => .error (.panicked ("coreBindingInsert: Unknown type [" ++ goVShow w ++ "] in switch"))
  else .ok ("", v)

/-- The `if r == ""` fallback of `coreBindingInsert`'s loop body: when the
identity switch produced no placeholder text, look the field up and render
its named placeholder — dereferencing a nil `*schema.Field` (a map miss)
panics. -/
def bindNameStep (r k : String) (fieldsMap : List (String × Field)) :
    Except GenFailure String :=
  if r = "" then
    match alookup k fieldsMap with
    | none => .error (.panicked nilDerefMsg)
    | some f => .ok (renderBindingInsertValue f)
  else .ok r

/-- The `if v == nil` tail of `coreBindingInsert`'s loop body: a nil value is
stored as a nil bind slot; otherwise `renderInsertValue` renders it, and a
rendering error is re-raised via `panic(err.Error())` as in the source (a
nil-field dereference inside `renderInsertValue` is likewise a panic). -/
def renderStep (fieldsMap : List (String × Field)) (k : String) (v : GoVal) :
    Except GenFailure (Option BindVal) :=
  if v = .goNil then .ok none
  else
    match renderInsertValue (alookup k fieldsMap) v with
    | .error .nilPanic => .error (.panicked nilDerefMsg)
    | .error (.goErr m) => .error (.panicked m)
    | .ok b => .ok (some b)

/-- One iteration of `coreBindingInsert`'s loop over the value map: produces
the placeholder (`bindNames[i]`), the column name (`colNames[i]`) and the
bind-argument slot (`bindArgs[i]`, `none` modelling a nil slot) for one map
entry, or the panic that iteration raised. -/
def processEntry (g : Generator) (identityCol : String) (fieldsMap : List (String × Field))
    (kv : String × GoVal) : Except GenFailure (String × String × Option BindVal) :=
  match identityStep g identityCol kv.1 kv.2 with
  | .error e => .error e
  | .ok (r, v) =>
    match bindNameStep r kv.1 fieldsMap with
    | .error e => .error e
    | .ok bindName =>
      match renderStep fieldsMap kv.1 v with
      | .error e => .error e
      | .ok slot => .ok (bindName, kv.1, slot)

/-- Effectful map over a list in `Except`, stopping at the first failure —
the control flow of a Go loop whose body can panic. -/
def exMapM (f : α → Except ε β) : List α → Except ε (List β)
  | [] => .ok []
  | a :: t =>
    match f a with
    | .error e => .error e
    | .ok b =>
      match exMapM f t with
      | .error e => .error e
      | .ok bs => .ok (b :: bs)

/-- `coreBindingInsert` from the source: one traversal of the value map
filling the three sequences `bindNames`, `colNames`, `bindArgs` in step. -/
def coreBindingInsert (g : Generator) (data : List (String × GoVal)) (identityCol : String)
    (fieldsMap : List (String × Field)) :
    Except GenFailure (List String × List String × List (Option BindVal)) :=
  match exMapM (processEntry g identityCol fieldsMap) data with
  | .error e => .error e
  | .ok rows => .ok (rows.map (fun r => r.1), rows.map (fun r => r.2.1), rows.map (fun r => r.2.2))

/-- `countNils` from the source. -/
def countNils (maybeNils : List (Option BindVal)) : Nat :=
  maybeNils.countP (fun v => v.isNone)

/-- `removeNils` from the source: keeps the non-nil entries in order (the Go
version preallocates a slice of the right size and fills it left to right;
the `count` argument only sizes that allocation). -/
def removeNils : List (Option BindVal) → List (Option BindVal)
  | [] => []
  | none :: t => removeNils t
  | some b :: t => some b :: removeNils t

/-- `removeNilsIfNeeded` from the source. -/
def removeNilsIfNeeded (maybeNils : List (Option BindVal)) : List (Option BindVal) :=
  if 0 < countNils maybeNils then removeNils maybeNils else maybeNils

/-- `BindingInsert` from the source.  The result pairs the function's
`(sqlStr, bindArgs, error)` outcome with the value map as the caller sees it
afterwards (`setPKifNeeded` mutates the caller's map in place, and does so
even when a later loop iteration panics). -/
def BindingInsert (g : Generator) (sch : Schema) (table : String)
    (data : Option (List (String × GoVal))) :
    Except GenFailure (String × List (Option BindVal)) × Option (List (String × GoVal)) :=
  if table = "" then (.error (.errReturn "BindingInsert: Empty table name"), data)
  else
    match data with
    | none => (.error (.errReturn "BindingInsert: Empty data passed"), none)
    | some d =>
      match alookup table sch.Tables with
      | none =>
        (.error (.errReturn ("BindingInsert: Table map unavailable for table " ++ table)), some d)
      | some schTable =>
        let tableName := GetTableName schTable.Name table
        match schTable.Fields with
        | none =>
          (.error (.errReturn ("BindingInsert: Field map unavailable for table " ++ table)), some d)
        | some fieldsMap =>
          let identityCol := schTable.Primary
          let d2 := setPKifNeeded g d identityCol
          match coreBindingInsert g d2 identityCol fieldsMap with
          | .error e => (.error e, some d2)
          | .ok (bindNames, colNames, bindArgs0) =>
            let bindArgs := removeNilsIfNeeded bindArgs0
            let sqlStr :=
              if g.CallerSuppliesPK = true then
                "INSERT INTO " ++ tableName ++ " (" ++ String.intercalate "," colNames ++
                  ") VALUES (" ++ String.intercalate "," bindNames ++ ")"
              else
                "INSERT INTO " ++ tableName ++ " (" ++ String.intercalate "," colNames ++
                  ") VALUES (" ++ String.intercalate "," bindNames ++ ") RETURNING " ++
                  identityCol ++ " /*LASTINSERTID*/ INTO :" ++ identityCol
            (.ok (sqlStr, bindArgs), some d2)

/-- Does a bind slot get omitted (nil bind value) for this value-map entry?
That happens exactly for a nil interface value, and for a `*object.SqlValue`
on the identity column under `CallerSuppliesPK` (the `v = nil` assignment in
the identity type switch). -/
def isSqlPtr : GoVal → Bool
  | .sqlValuePtr _ => true
  | _ => false

def omittedSlot (g : Generator) (idc : String) (kv : String × GoVal) : Bool :=
  decide (kv.2 = GoVal.goNil) || (g.CallerSuppliesPK && decide (kv.1 = idc) && isSqlPtr kv.2)

theorem exMapM_ok_forall2 {f : α → Except ε β} :
    ∀ {l : List α} {l2 : List β}, exMapM f l = .ok l2 →
      List.Forall₂ (fun a b => f a = .ok b) l l2 := by
  intro l
  induction l with
  | nil => intro l2 h; simp only [exMapM] at h; cases h; exact List.Forall₂.nil
  | cons a t ih =>
    intro l2 h
    simp only [exMapM] at h
    cases hfa : f a with
    | error e => rw [hfa] at h; cases h
    | ok b =>
      rw [hfa] at h
      cases hrest : exMapM f t with
      | error e => rw [hrest] at h; cases h
      | ok bs =>
        rw [hrest] at h
        cases h
        exact List.Forall₂.cons hfa (ih hrest)

theorem exMapM_error_of_mem {f : α → Except ε β} {a : α} {e : ε} :
    ∀ {l : List α}, a ∈ l → f a = .error e → ∃ e2, exMapM f l = .error e2 := by
  intro l
  induction l with
  | nil => intro h; cases h
  | cons x t ih =>
    intro hm hfa
    rcases List.mem_cons.mp hm with h | h
    · subst h
      exact ⟨e, by simp only [exMapM, hfa]⟩
    · cases hfx : f x with
      | error e2 => exact ⟨e2, by simp only [exMapM, hfx]⟩
      | ok b =>
        rcases ih h hfa with ⟨e2, he2⟩
        exact ⟨e2, by simp only [exMapM, hfx, he2]⟩

theorem forall2_getElem? {R : α → β → Prop} :
    ∀ {l : List α} {l2 : List β}, List.Forall₂ R l l2 → ∀ {i : Nat} {a : α},
      l[i]? = some a → ∃ b, l2[i]? = some b ∧ R a b := by
  intro l l2 h
  induction h with
  | nil => intro i a h; simp at h
  | cons hR _ ih =>
    intro i a h
    cases i with
    | zero => simp_all
    | succ j => simp only [List.getElem?_cons_succ] at h ⊢; exact ih h

theorem forall2_countP {R : α → β → Prop} {p : α → Bool} {q : β → Bool} :
    ∀ {l : List α} {l2 : List β}, List.Forall₂ R l l2 →
      (∀ a b, R a b → p a = q b) → l.countP p = l2.countP q := by
  intro l l2 h hpq
  induction h with
  | nil => rfl
  | cons hR _ ih =>
    simp only [List.countP_cons, hpq _ _ hR, ih]

theorem removeNils_eq_filter (l : List (Option BindVal)) :
    removeNils l = l.filter (fun v => v.isSome) := by
  induction l with
  | nil => rfl
  | cons x t ih => cases x <;> simp [removeNils, List.filter, ih]

theorem removeNilsIfNeeded_eq_filter (l : List (Option BindVal)) :
    removeNilsIfNeeded l = l.filter (fun v => v.isSome) := by
  unfold removeNilsIfNeeded
  split
  · exact removeNils_eq_filter l
  · rename_i h
    have hz : l.countP (fun v => v.isNone) = 0 := by
      unfold countNils at h; omega
    rw [List.countP_eq_zero] at hz
    symm
    apply List.filter_eq_self.mpr
    intro v hv
    have := hz v hv
    cases v <;> simp_all

theorem length_filter_isSome (l : List (Option BindVal)) :
    (l.filter (fun v => v.isSome)).length = l.length - countNils l := by
  induction l with
  | nil => rfl
  | cons x t ih =>
    have hle := List.countP_le_length (l := t) (p := fun v : Option BindVal => v.isNone)
    cases x <;>
      simp_all [List.filter, countNils, List.countP_cons] <;> omega

theorem identityStep_ok_nilIff (g : Generator) (idc k : String) (v : GoVal)
    (r2 : String × GoVal) (h : identityStep g idc k v = .ok r2) :
    (r2.2 = GoVal.goNil) ↔
      (v = GoVal.goNil ∨ (g.CallerSuppliesPK = true ∧ k = idc ∧ isSqlPtr v = true)) := by
  unfold identityStep at h
  by_cases hc : g.CallerSuppliesPK = true ∧ k = idc
  · rw [if_pos hc] at h
    cases v <;> simp_all [isSqlPtr] <;> simp [← h]
  · rw [if_neg hc] at h
    cases h
    simp only []
    constructor
    · intro hv; exact Or.inl hv
    · rintro (hv | ⟨h1, h2, _⟩)
      · exact hv
      · exact absurd ⟨h1, h2⟩ hc

theorem renderStep_ok_isNone (fm : List (String × Field)) (k : String) (v : GoVal)
    (slot : Option BindVal) (h : renderStep fm k v = .ok slot) :
    slot.isNone = decide (v = GoVal.goNil) := by
  unfold renderStep at h
  by_cases hv : v = GoVal.goNil
  · rw [if_pos hv] at h; cases h; simp [hv]
  · rw [if_neg hv] at h
    cases hr : renderInsertValue (alookup k fm) v with
    | error e => rw [hr] at h; cases e <;> cases h
    | ok b => rw [hr] at h; cases h; simp [hv]

theorem omittedSlot_eq_decide (g : Generator) (idc : String) (kv : String × GoVal) :
    omittedSlot g idc kv =
      decide (kv.2 = GoVal.goNil ∨
        (g.CallerSuppliesPK = true ∧ kv.1 = idc ∧ isSqlPtr kv.2 = true)) := by
  by_cases h1 : kv.2 = GoVal.goNil <;>
    by_cases h2 : g.CallerSuppliesPK = true <;>
      by_cases h3 : kv.1 = idc <;>
        by_cases h4 : isSqlPtr kv.2 = true <;>
          simp_all [omittedSlot]

theorem processEntry_ok_parts (g : Generator) (idc : String) (fm : List (String × Field))
    (kv : String × GoVal) (r : String × String × Option BindVal)
    (h : processEntry g idc fm kv = .ok r) :
    r.2.1 = kv.1 ∧ r.2.2.isNone = omittedSlot g idc kv := by
  unfold processEntry at h
  cases his : identityStep g idc kv.1 kv.2 with
  | error e => rw [his] at h; cases h
  | ok rv =>
    obtain ⟨r1, v1⟩ := rv
    rw [his] at h
    simp only [] at h
    cases hbn : bindNameStep r1 kv.1 fm with
    | error e => rw [hbn] at h; cases h
    | ok bindName =>
      rw [hbn] at h
      cases hrs : renderStep fm kv.1 v1 with
      | error e => rw [hrs] at h; cases h
      | ok slot =>
        rw [hrs] at h
        cases h
        refine ⟨rfl, ?_⟩
        have h1 := renderStep_ok_isNone fm kv.1 v1 slot hrs
        have h2 := identityStep_ok_nilIff g idc kv.1 kv.2 (r1, v1) his
        rw [omittedSlot_eq_decide]
        simp only [h1]
        exact decide_eq_decide.mpr h2

theorem processEntry_error_panicked (g : Generator) (idc : String)
    (fm : List (String × Field)) (kv : String × GoVal) (e : GenFailure)
    (h : processEntry g idc fm kv = .error e) : ∃ m, e = GenFailure.panicked m := by
  unfold processEntry at h
  cases his : identityStep g idc kv.1 kv.2 with
  | error e2 =>
    rw [his] at h
    cases h
    unfold identityStep at his
    split at his
    · split at his <;> cases his <;> exact ⟨_, rfl⟩
    · cases his
  | ok rv =>
    obtain ⟨r1, v1⟩ := rv
    rw [his] at h
    simp only [] at h
    cases hbn : bindNameStep r1 kv.1 fm with
    | error e2 =>
      rw [hbn] at h
      cases h
      unfold bindNameStep at hbn
      split at hbn
      · split at hbn <;> cases hbn; exact ⟨_, rfl⟩
      · cases hbn
    | ok bindName =>
      rw [hbn] at h
      cases hrs : renderStep fm kv.1 v1 with
      | error e2 =>
        rw [hrs] at h
        cases h
        unfold renderStep at hrs
        split at hrs
        · cases hrs
        · split at hrs <;> cases hrs <;> exact ⟨_, rfl⟩
      | ok slot => rw [hrs] at h; cases h

theorem processEntry_unknown_col (g : Generator) (idc : String)
    (fm : List (String × Field)) (k : String) (v : GoVal)
    (hl : alookup k fm = none) (hc : ¬(g.CallerSuppliesPK = true ∧ k = idc)) :
    processEntry g idc fm (k, v) = .error (.panicked nilDerefMsg) := by
  unfold processEntry identityStep bindNameStep
  rw [if_neg hc]
  simp [hl]

theorem processEntry_other_val (g : Generator) (idc : String)
    (fm : List (String × Field)) (k : String) (t : String) (fl : Field)
    (hl : alookup k fm = some fl) (hc : ¬(g.CallerSuppliesPK = true ∧ k = idc)) :
    processEntry g idc fm (k, GoVal.other t) =
      .error (.panicked ("renderInsertValue: unknown type " ++ t ++ " for the value of " ++ fl.Name)) := by
  unfold processEntry identityStep bindNameStep renderStep renderInsertValue
  rw [if_neg hc]
  simp [hl]

theorem exMapM_error_src {f : α → Except ε β} :
    ∀ {l : List α} {e : ε}, exMapM f l = .error e → ∃ a ∈ l, f a = .error e := by
  intro l
  induction l with
  | nil => intro e h; simp only [exMapM] at h; cases h
  | cons x t ih =>
    intro e h
    simp only [exMapM] at h
    cases hfx : f x with
    | error e2 => rw [hfx] at h; cases h; exact ⟨x, List.mem_cons_self x t, hfx⟩
    | ok b =>
      rw [hfx] at h
      cases hrest : exMapM f t with
      | error e2 =>
        rw [hrest] at h; cases h
        rcases ih hrest with ⟨a, ha, hfa⟩
        exact ⟨a, List.mem_cons_of_mem x ha, hfa⟩
      | ok bs => rw [hrest] at h; cases h

theorem coreBindingInsert_ok_rows (g : Generator) (d : List (String × GoVal))
    (idc : String) (fm : List (String × Field))
    (bn cn : List String) (slots : List (Option BindVal))
    (h : coreBindingInsert g d idc fm = .ok (bn, cn, slots)) :
    ∃ rows, exMapM (processEntry g idc fm) d = .ok rows ∧
      bn = rows.map (fun r => r.1) ∧ cn = rows.map (fun r => r.2.1) ∧
      slots = rows.map (fun r => r.2.2) := by
  unfold coreBindingInsert at h
  cases hm : exMapM (processEntry g idc fm) d with
  | error e => rw [hm] at h; cases h
  | ok rows =>
    rw [hm] at h
    cases h
    exact ⟨rows, rfl, rfl, rfl, rfl⟩

theorem coreBindingInsert_error_of_entry (g : Generator) (d : List (String × GoVal))
    (idc : String) (fm : List (String × Field)) (kv : String × GoVal) (e : GenFailure)
    (hm : kv ∈ d) (he : processEntry g idc fm kv = .error e) :
    ∃ m, coreBindingInsert g d idc fm = .error (.panicked m) := by
  rcases exMapM_error_of_mem hm he with ⟨e2, he2⟩
  rcases exMapM_error_src he2 with ⟨a, _, hfa⟩
  rcases processEntry_error_panicked g idc fm a e2 hfa with ⟨m, hm2⟩
  subst hm2
  exact ⟨m, by unfold coreBindingInsert; rw [he2]⟩

/-- Structural inversion of a successful `BindingInsert` run: recovers the
schema lookups it must have done, the mutated map it passed to the core, the
core's three sequences, and the shape of the SQL text. -/
theorem BindingInsert_ok_spec (g : Generator) (sch : Schema) (table : String)
    (d : List (String × GoVal)) (sql : String) (args : List (Option BindVal))
    (dOut : Option (List (String × GoVal)))
    (h : BindingInsert g sch table (some d) = (.ok (sql, args), dOut)) :
    ∃ t fm bn cn slots,
      alookup table sch.Tables = some t ∧ t.Fields = some fm ∧ table ≠ "" ∧
      dOut = some (setPKifNeeded g d t.Primary) ∧
      coreBindingInsert g (setPKifNeeded g d t.Primary) t.Primary fm = .ok (bn, cn, slots) ∧
      args = removeNilsIfNeeded slots ∧
      sql = (if g.CallerSuppliesPK = true then
              "INSERT INTO " ++ GetTableName t.Name table ++ " (" ++
                String.intercalate "," cn ++ ") VALUES (" ++ String.intercalate "," bn ++ ")"
            else
              "INSERT INTO " ++ GetTableName t.Name table ++ " (" ++
                String.intercalate "," cn ++ ") VALUES (" ++ String.intercalate "," bn ++
                ") RETURNING " ++ t.Primary ++ " /*LASTINSERTID*/ INTO :" ++ t.Primary) := by
  unfold BindingInsert at h
  by_cases ht : table = ""
  · rw [if_pos ht] at h; cases h
  · rw [if_neg ht] at h
    simp only [] at h
    cases hT : alookup table sch.Tables with
    | none => rw [hT] at h; cases h
    | some t =>
      rw [hT] at h
      simp only [] at h
      cases hF : t.Fields with
      | none => rw [hF] at h; cases h
      | some fm =>
        rw [hF] at h
        simp only [] at h
        cases hc : coreBindingInsert g (setPKifNeeded g d t.Primary) t.Primary fm with
        | error e => rw [hc] at h; cases h
        | ok triple =>
          obtain ⟨bn, cn, slots⟩ := triple
          rw [hc] at h
          simp only [] at h
          have hL := congrArg Prod.fst h
          have hR := congrArg Prod.snd h
          have h3 := Except.ok.inj hL
          refine ⟨t, fm, bn, cn, slots, rfl, hF, ht, (hR : _ = dOut).symm, hc,
            (congrArg Prod.snd h3).symm, (congrArg Prod.fst h3).symm⟩

theorem forall2_map_eq {R : α → β → Prop} {f : β → γ} {g : α → γ} :
    ∀ {l : List α} {l2 : List β}, List.Forall₂ R l l2 → (∀ a b, R a b → f b = g a) →
      l2.map f = l.map g := by
  intro l l2 h hfg
  induction h with
  | nil => rfl
  | cons hR _ ih => simp only [List.map_cons, hfg _ _ hR, ih]

theorem mem_setPKifNeeded (g : Generator) (d : List (String × GoVal)) (idc : String)
    (kv : String × GoVal) (h : kv ∈ d) : kv ∈ setPKifNeeded g d idc := by
  unfold setPKifNeeded
  split
  · exact List.mem_append_left _ h
  · exact h

/-- Discriminates an ordinary non-nil error return value from every other
outcome (success or panic). -/
def isErrReturn : Except GenFailure α → Bool
  | .error (.errReturn _) => true
  | _ => false

theorem BindingInsert_snd (g : Generator) (sch : Schema) (table : String)
    (d : List (String × GoVal)) (t : Table) (fm : List (String × Field))
    (ht : table ≠ "") (hT : alookup table sch.Tables = some t) (hF : t.Fields = some fm) :
    (BindingInsert g sch table (some d)).2 = some (setPKifNeeded g d t.Primary) := by
  unfold BindingInsert
  rw [if_neg ht]
  simp only []
  rw [hT]
  simp only []
  rw [hF]
  simp only []
  split <;> rfl

theorem BindingInsert_core_error (g : Generator) (sch : Schema) (table : String)
    (d : List (String × GoVal)) (t : Table) (fm : List (String × Field)) (e : GenFailure)
    (ht : table ≠ "") (hT : alookup table sch.Tables = some t) (hF : t.Fields = some fm)
    (hc : coreBindingInsert g (setPKifNeeded g d t.Primary) t.Primary fm = .error e) :
    (BindingInsert g sch table (some d)).1 = .error e := by
  unfold BindingInsert
  rw [if_neg ht]
  simp only []
  rw [hT]
  simp only []
  rw [hF]
  simp only []
  rw [hc]

theorem digitChar_isDigit (k : Nat) (h : k < 10) : (Nat.digitChar k).isDigit = true := by
  interval_cases k <;> rfl

theorem decDigitsAux_isDigit :
    ∀ (fuel n : Nat), ∀ c ∈ decDigitsAux fuel n, c.isDigit = true := by
  intro fuel
  induction fuel with
  | zero => intro n c hc; cases hc
  | succ f ih =>
    intro n c hc
    rw [decDigitsAux] at hc
    split at hc
    · rcases List.mem_singleton.mp hc with rfl
      exact digitChar_isDigit n (by omega)
    · rcases List.mem_append.mp hc with h1 | h1
      · exact ih (n / 10) c h1
      · rcases List.mem_singleton.mp h1 with rfl
        exact digitChar_isDigit (n % 10) (Nat.mod_lt n (by omega))

theorem decDigits_isDigit : ∀ (n : Nat), ∀ c ∈ decDigits n, c.isDigit = true := by
  intro n c hc
  exact decDigitsAux_isDigit (n + 1) n c hc

theorem fixedShape_formatFixed6 (q : ℚ) : fixedShape (formatFixed6 q) = true := by
  unfold fixedShape formatFixed6
  rw [List.all_eq_true]
  intro c hc
  have hc2 : c ∈ (if q < 0 then ['-'] else []) ++
      decDigits ((roundHalfEven (|q| * 1000000)).toNat / 1000000) ++ ['.'] ++
      padZeros6 (decDigits ((roundHalfEven (|q| * 1000000)).toNat % 1000000)) := hc
  simp only [List.append_assoc, List.mem_append, padZeros6, List.mem_replicate] at hc2
  rcases hc2 with h1 | h1 | h1 | h1 | h1
  · split at h1
    · rcases List.mem_singleton.mp h1 with rfl; rfl
    · cases h1
  · simp [decDigits_isDigit _ c h1]
  · rcases List.mem_singleton.mp h1 with rfl; rfl
  · rcases h1.2 with rfl; rfl
  · simp [decDigits_isDigit _ c h1]

theorem natDecStr_digits (n : Nat) : (natDecStr n).toList.all Char.isDigit = true := by
  rw [List.all_eq_true]
  intro c hc
  exact decDigits_isDigit n c hc

/-- Claim C1, counterexample to the frozen wording.  On the value map
`{A: *SqlValue("SYSDATE")}` (a non-identity column), `coreBindingInsert`
keeps the expression text as a raw bind argument, so the number of bound
arguments is 1, not `placeholders - number of SqlValue values = 0`: the
"minus the number of unquoted-expression values" clause fails. -/
theorem C1_counterexample :
    coreBindingInsert ⟨false⟩ [("A", GoVal.sqlValuePtr "SYSDATE")] "ID" [("A", ⟨"A", false⟩)] =
      .ok ([":A"], ["A"], [some (BindVal.str "SYSDATE")]) ∧
    (removeNilsIfNeeded [some (BindVal.str "SYSDATE")]).length ≠ 1 - 1 := by
  exact ⟨rfl, by decide⟩

/-- Claim C1 (amended): for every value map accepted by `coreBindingInsert`,
the placeholder list, the column list and the pre-compaction bind-slot list
all have the map's length and derive from one single traversal (the Nth
element of each comes from the Nth map entry); compaction removes exactly
the nil slots — which arise from nil values and from `*SqlValue` values on
the identity column under `CallerSuppliesPK`, NOT from unquoted-expression
values on other columns (those stay as raw text bind arguments) — and
preserves the order of the remaining slots, leaving no holes, so the Nth
surviving bind argument corresponds to the Nth non-omitted placeholder. -/
theorem C1_alignment (g : Generator) (d : List (String × GoVal)) (idc : String)
    (fm : List (String × Field)) (bn cn : List String) (slots : List (Option BindVal))
    (h : coreBindingInsert g d idc fm = .ok (bn, cn, slots)) :
    bn.length = d.length ∧ cn.length = d.length ∧ slots.length = d.length ∧
    cn = d.map Prod.fst ∧
    removeNilsIfNeeded slots = slots.filter (fun v => v.isSome) ∧
    (removeNilsIfNeeded slots).length = d.length - d.countP (omittedSlot g idc) ∧
    (∀ (i : Nat) (kv : String × GoVal), d[i]? = some kv →
      ∃ b c s, bn[i]? = some b ∧ cn[i]? = some c ∧
        slots[i]? = some s ∧ processEntry g idc fm kv = .ok (b, c, s)) := by
  rcases coreBindingInsert_ok_rows g d idc fm bn cn slots h with
    ⟨rows, hrows, hbn, hcn, hslots⟩
  have hF2 := exMapM_ok_forall2 hrows
  have hlen : d.length = rows.length := hF2.length_eq
  have hcn2 : cn = d.map Prod.fst := by
    rw [hcn]
    exact forall2_map_eq hF2 (fun a b hab => (processEntry_ok_parts g idc fm a b hab).1)
  have hcount : slots.countP (fun v => v.isNone) = d.countP (omittedSlot g idc) := by
    rw [hslots, List.countP_map]
    exact (forall2_countP hF2 (fun a b hab =>
      ((processEntry_ok_parts g idc fm a b hab).2).symm)).symm
  refine ⟨?_, ?_, ?_, hcn2, removeNilsIfNeeded_eq_filter slots, ?_, ?_⟩
  · rw [hbn, List.length_map, hlen]
  · rw [hcn, List.length_map, hlen]
  · rw [hslots, List.length_map, hlen]
  · rw [removeNilsIfNeeded_eq_filter, length_filter_isSome, hslots, List.length_map, hlen]
    unfold countNils
    rw [List.countP_map]
    have := hcount
    rw [hslots, List.countP_map] at this
    rw [this]
  · intro i kv hi
    rcases forall2_getElem? hF2 hi with ⟨r, hr, hpr⟩
    refine ⟨r.1, r.2.1, r.2.2, ?_, ?_, ?_, hpr⟩
    · rw [hbn, List.getElem?_map, hr]; rfl
    · rw [hcn, List.getElem?_map, hr]; rfl
    · rw [hslots, List.getElem?_map, hr]; rfl

/-- Witness for C1_alignment at the concrete map
`[A: "x", ID: *SqlValue("SYS_GUID()")]` under `CallerSuppliesPK`. -/
theorem C1_alignment_witness :
    ([":A", "SYS_GUID()"] : List String).length =
      ([("A", GoVal.str "x"), ("ID", GoVal.sqlValuePtr "SYS_GUID()")]).length ∧
    removeNilsIfNeeded [some (BindVal.str "x"), none] =
      [some (BindVal.str "x"), none].filter (fun v => v.isSome) ∧
    (removeNilsIfNeeded [some (BindVal.str "x"), none]).length =
      ([("A", GoVal.str "x"), ("ID", GoVal.sqlValuePtr "SYS_GUID()")]).length -
        ([("A", GoVal.str "x"), ("ID", GoVal.sqlValuePtr "SYS_GUID()")]).countP
          (omittedSlot ⟨true⟩ "ID") := by
  have h := C1_alignment ⟨true⟩ [("A", GoVal.str "x"), ("ID", GoVal.sqlValuePtr "SYS_GUID()")]
    "ID" [("A", ⟨"A", false⟩), ("ID", ⟨"ID", true⟩)]
    [":A", "SYS_GUID()"] ["A", "ID"] [some (BindVal.str "x"), none] rfl
  exact ⟨h.1, h.2.2.2.2.1, h.2.2.2.2.2.1⟩

/-- Claim C2, counterexample to the frozen wording: a value-typed
`object.SqlValue` (as opposed to `*object.SqlValue`) on the identity column
under `CallerSuppliesPK` hits the `default` arm of the identity type switch
and panics — its expression text is not emitted at all. -/
theorem C2_counterexample :
    processEntry ⟨true⟩ "ID" [("ID", ⟨"ID", true⟩)] ("ID", GoVal.sqlValueVal "SYS_GUID()") =
      .error (.panicked "coreBindingInsert: Unknown type [SYS_GUID()] in switch") := by
  rfl

/-- Claim C2 (amended): every `SqlValue` value (pointer or value form) on a
non-identity column has its expression text passed through unchanged as a
raw text bind argument; a pointer `SqlValue` on the identity column under
`CallerSuppliesPK` has its text substituted directly into the placeholder
slot with the bind slot omitted when that text is non-empty, while the
empty expression text instead falls through the `r == ""` check to the
named placeholder `:<pk>` with the bind slot still dropped (an unbound
placeholder; no expression text is emitted).  No `SqlValue` text is ever
wrapped by the parameter-quoting helper (`quotedString s` differs from the
emitted text `s`).  The exception the counterexample forces: a value-typed
`SqlValue` on the identity column under `CallerSuppliesPK` panics instead
of being emitted. -/
theorem C2_sqlvalue_verbatim (g : Generator) (idc : String) (fm : List (String × Field))
    (k s : String) (fl : Field) (hl : alookup k fm = some fl) :
    (¬(g.CallerSuppliesPK = true ∧ k = idc) →
      processEntry g idc fm (k, GoVal.sqlValuePtr s) =
        .ok (renderBindingInsertValue fl, k, some (BindVal.str s)) ∧
      processEntry g idc fm (k, GoVal.sqlValueVal s) =
        .ok (renderBindingInsertValue fl, k, some (BindVal.str s))) ∧
    (g.CallerSuppliesPK = true → k = idc → s ≠ "" →
      processEntry g idc fm (k, GoVal.sqlValuePtr s) = .ok (s, k, none)) ∧
    (g.CallerSuppliesPK = true → k = idc →
      processEntry g idc fm (k, GoVal.sqlValuePtr "") =
        .ok (renderBindingInsertValue fl, k, none)) ∧
    quotedString s ≠ s := by
  refine ⟨?_, ?_, ?_, ?_⟩
  · intro hc
    constructor <;>
      (unfold processEntry identityStep bindNameStep renderStep renderInsertValue
       rw [if_neg hc]
       simp [hl, renderBindingInsertValue])
  · intro hg hk hs
    unfold processEntry identityStep bindNameStep renderStep
    rw [if_pos ⟨hg, hk⟩]
    simp [hs]
  · intro hg hk
    unfold processEntry identityStep bindNameStep renderStep
    rw [if_pos ⟨hg, hk⟩]
    simp [hl]
  · intro heq
    have hlen := congrArg String.length heq
    rw [quotedString, String.length_append, String.length_append] at hlen
    have h1 : ("\x22" : String).length = 1 := rfl
    omega

/-- Witness for C2_sqlvalue_verbatim: a non-identity `*SqlValue("NOW()")`
(raw bind argument), an identity `*SqlValue("SYS_GUID()")` under
`CallerSuppliesPK` (substituted into the placeholder slot), and an identity
`*SqlValue("")` (falls back to the named placeholder with the bind slot
dropped). -/
theorem C2_sqlvalue_verbatim_witness :
    processEntry ⟨false⟩ "ID" [("A", ⟨"A", false⟩)] ("A", GoVal.sqlValuePtr "NOW()") =
      .ok (renderBindingInsertValue ⟨"A", false⟩, "A", some (BindVal.str "NOW()")) ∧
    processEntry ⟨true⟩ "ID" [("ID", ⟨"ID", true⟩)] ("ID", GoVal.sqlValuePtr "SYS_GUID()") =
      .ok ("SYS_GUID()", "ID", none) ∧
    processEntry ⟨true⟩ "ID" [("ID", ⟨"ID", true⟩)] ("ID", GoVal.sqlValuePtr "") =
      .ok (renderBindingInsertValue ⟨"ID", true⟩, "ID", none) ∧
    quotedString "NOW()" ≠ "NOW()" := by
  have h1 := C2_sqlvalue_verbatim ⟨false⟩ "ID" [("A", ⟨"A", false⟩)] "A" "NOW()"
    ⟨"A", false⟩ rfl
  have h2 := C2_sqlvalue_verbatim ⟨true⟩ "ID" [("ID", ⟨"ID", true⟩)] "ID" "SYS_GUID()"
    ⟨"ID", true⟩ rfl
  exact ⟨(h1.1 (by decide)).1, h2.2.1 rfl rfl (by decide), h2.2.2.1 rfl rfl, h1.2.2.2⟩

/-- Claim C3: when the identity is not caller-supplied, a successful
`BindingInsert` emits the Oracle return-generated-identity clause naming the
primary-key column; when it is caller-supplied and the identity column is
absent from the value map, the map gains `identity -> *SqlValue("SYS_GUID()")`
and that entry renders as the literal expression in the placeholder slot with
its bind slot omitted — an unquoted expression, not a bound parameter. -/
theorem C3_identity_handling (g : Generator) (sch : Schema) (table : String)
    (d : List (String × GoVal)) (t : Table) (fm : List (String × Field))
    (sql : String) (args : List (Option BindVal)) (dOut : Option (List (String × GoVal)))
    (hrun : BindingInsert g sch table (some d) = (.ok (sql, args), dOut))
    (hT : alookup table sch.Tables = some t) :
    (g.CallerSuppliesPK = false →
      ∃ c b, sql = "INSERT INTO " ++ GetTableName t.Name table ++ " (" ++ c ++
        ") VALUES (" ++ b ++ ") RETURNING " ++ t.Primary ++ " /*LASTINSERTID*/ INTO :" ++
        t.Primary) ∧
    (g.CallerSuppliesPK = true → alookup t.Primary d = none →
      setPKifNeeded g d t.Primary = d ++ [(t.Primary, GoVal.sqlValuePtr "SYS_GUID()")] ∧
      processEntry g t.Primary fm (t.Primary, GoVal.sqlValuePtr "SYS_GUID()") =
        .ok ("SYS_GUID()", t.Primary, none)) := by
  rcases BindingInsert_ok_spec g sch table d sql args dOut hrun with
    ⟨t2, fm2, bn, cn, slots, hT2, _, _, _, _, _, hsql⟩
  have ht2 : t2 = t := by
    rw [hT] at hT2
    exact (Option.some.inj hT2).symm
  subst ht2
  constructor
  · intro hg
    rw [hg] at hsql
    simp only [Bool.false_eq_true, if_false] at hsql
    exact ⟨String.intercalate "," cn, String.intercalate "," bn, hsql⟩
  · intro hg habs
    constructor
    · unfold setPKifNeeded
      rw [if_pos ⟨hg, habs⟩]
    · unfold processEntry identityStep bindNameStep renderStep
      rw [if_pos ⟨hg, rfl⟩]
      simp

/-- Witness for C3_identity_handling: one run with a database-generated
identity, one with a caller-supplied identity absent from the map. -/
theorem C3_identity_handling_witness :
    (∃ c b, "INSERT INTO T (A) VALUES (:A) RETURNING ID /*LASTINSERTID*/ INTO :ID" =
      "INSERT INTO " ++ GetTableName "T" "T" ++ " (" ++ c ++ ") VALUES (" ++ b ++
        ") RETURNING " ++ "ID" ++ " /*LASTINSERTID*/ INTO :" ++ "ID") ∧
    setPKifNeeded ⟨true⟩ [("A", GoVal.str "x")] "ID" =
      [("A", GoVal.str "x")] ++ [("ID", GoVal.sqlValuePtr "SYS_GUID()")] ∧
    processEntry ⟨true⟩ "ID" [("A", ⟨"A", false⟩), ("ID", ⟨"ID", true⟩)]
        ("ID", GoVal.sqlValuePtr "SYS_GUID()") = .ok ("SYS_GUID()", "ID", none) := by
  have h1 := C3_identity_handling ⟨false⟩
    ⟨[("T", ⟨"T", "ID", some [("A", ⟨"A", false⟩), ("ID", ⟨"ID", true⟩)]⟩)]⟩ "T"
    [("A", GoVal.str "x")] ⟨"T", "ID", some [("A", ⟨"A", false⟩), ("ID", ⟨"ID", true⟩)]⟩
    [("A", ⟨"A", false⟩), ("ID", ⟨"ID", true⟩)]
    "INSERT INTO T (A) VALUES (:A) RETURNING ID /*LASTINSERTID*/ INTO :ID"
    [some (BindVal.str "x")] (some [("A", GoVal.str "x")]) rfl rfl
  have h2 := C3_identity_handling ⟨true⟩
    ⟨[("T", ⟨"T", "ID", some [("A", ⟨"A", false⟩), ("ID", ⟨"ID", true⟩)]⟩)]⟩ "T"
    [("A", GoVal.str "x")] ⟨"T", "ID", some [("A", ⟨"A", false⟩), ("ID", ⟨"ID", true⟩)]⟩
    [("A", ⟨"A", false⟩), ("ID", ⟨"ID", true⟩)]
    "INSERT INTO T (A,ID) VALUES (:A,SYS_GUID())"
    [some (BindVal.str "x")]
    (some ([("A", GoVal.str "x")] ++ [("ID", GoVal.sqlValuePtr "SYS_GUID()")])) rfl rfl
  exact ⟨h1.1 rfl, (h2.2 rfl rfl).1, (h2.2 rfl rfl).2⟩

/-- Claim C4, counterexample to the frozen wording: a value-map column absent
from the table's field metadata does not produce an ordinary error return —
`renderBindingInsertValue` dereferences the nil `*schema.Field` and the
generation dies with a runtime panic. -/
theorem C4_counterexample :
    (BindingInsert ⟨false⟩ ⟨[("T", ⟨"T", "ID", some [("A", ⟨"A", true⟩)]⟩)]⟩ "T"
        (some [("B", GoVal.int 1)])).1 = .error (.panicked nilDerefMsg) ∧
    isErrReturn (BindingInsert ⟨false⟩ ⟨[("T", ⟨"T", "ID", some [("A", ⟨"A", true⟩)]⟩)]⟩ "T"
        (some [("B", GoVal.int 1)])).1 = false := by
  exact ⟨rfl, rfl⟩

/-- Claim C4 (amended): `BindingInsert` returns a non-nil error for an
unknown table and for a nil value map; a column present in the value map but
absent from the field metadata (other than the identity column under
`CallerSuppliesPK`) instead aborts generation with a runtime panic — a nil
`*schema.Field` dereference — rather than an ordinary error return. -/
theorem C4_error_paths (g : Generator) (sch : Schema) (table : String)
    (d : List (String × GoVal)) (t : Table) (fm : List (String × Field))
    (k : String) (v : GoVal) (ht : table ≠ "") :
    (BindingInsert g sch table none).1 =
      .error (.errReturn "BindingInsert: Empty data passed") ∧
    (alookup table sch.Tables = none →
      (BindingInsert g sch table (some d)).1 =
        .error (.errReturn ("BindingInsert: Table map unavailable for table " ++ table))) ∧
    (alookup table sch.Tables = some t → t.Fields = some fm →
      (k, v) ∈ d → alookup k fm = none → ¬(g.CallerSuppliesPK = true ∧ k = t.Primary) →
      ∃ m, (BindingInsert g sch table (some d)).1 = .error (.panicked m)) := by
  refine ⟨?_, ?_, ?_⟩
  · unfold BindingInsert
    rw [if_neg ht]
  · intro hT
    unfold BindingInsert
    rw [if_neg ht]
    simp only []
    rw [hT]
  · intro hT hF hm hl hc
    have hm2 : (k, v) ∈ setPKifNeeded g d t.Primary := mem_setPKifNeeded g d t.Primary _ hm
    have hpe := processEntry_unknown_col g t.Primary fm k v hl hc
    rcases coreBindingInsert_error_of_entry g (setPKifNeeded g d t.Primary) t.Primary fm
      (k, v) _ hm2 hpe with ⟨m, hcore⟩
    exact ⟨m, BindingInsert_core_error g sch table d t fm _ ht hT hF hcore⟩

/-- Witness for C4_error_paths on a one-table schema, with the unknown
column `B`. -/
theorem C4_error_paths_witness :
    (BindingInsert ⟨false⟩ ⟨[("T", ⟨"T", "ID", some [("A", ⟨"A", true⟩)]⟩)]⟩ "T" none).1 =
      .error (.errReturn "BindingInsert: Empty data passed") ∧
    (BindingInsert ⟨false⟩ ⟨[("T", ⟨"T", "ID", some [("A", ⟨"A", true⟩)]⟩)]⟩ "U"
        (some [("B", GoVal.int 1)])).1 =
      .error (.errReturn ("BindingInsert: Table map unavailable for table " ++ "U")) ∧
    ∃ m, (BindingInsert ⟨false⟩ ⟨[("T", ⟨"T", "ID", some [("A", ⟨"A", true⟩)]⟩)]⟩ "T"
        (some [("B", GoVal.int 1)])).1 = .error (.panicked m) := by
  have h1 := C4_error_paths ⟨false⟩ ⟨[("T", ⟨"T", "ID", some [("A", ⟨"A", true⟩)]⟩)]⟩ "T"
    [("B", GoVal.int 1)] ⟨"T", "ID", some [("A", ⟨"A", true⟩)]⟩ [("A", ⟨"A", true⟩)]
    "B" (GoVal.int 1) (by decide)
  have h2 := C4_error_paths ⟨false⟩ ⟨[("T", ⟨"T", "ID", some [("A", ⟨"A", true⟩)]⟩)]⟩ "U"
    [("B", GoVal.int 1)] ⟨"T", "ID", some [("A", ⟨"A", true⟩)]⟩ [("A", ⟨"A", true⟩)]
    "B" (GoVal.int 1) (by decide)
  exact ⟨h1.1, h2.2.1 rfl,
    h1.2.2 rfl rfl (List.mem_singleton.mpr rfl) rfl (by decide)⟩

/-- Claim C5, counterexample to the frozen wording: a value of unsupported
runtime type (here a `bool`) does not make `BindingInsert` return a non-nil
error — `coreBindingInsert` re-raises the rendering error as a panic
(`panic(err.Error())`). -/
theorem C5_counterexample :
    (BindingInsert ⟨false⟩ ⟨[("T", ⟨"T", "ID", some [("A", ⟨"A", true⟩)]⟩)]⟩ "T"
        (some [("A", GoVal.other "true")])).1 =
      .error (.panicked "renderInsertValue: unknown type true for the value of A") ∧
    isErrReturn (BindingInsert ⟨false⟩ ⟨[("T", ⟨"T", "ID", some [("A", ⟨"A", true⟩)]⟩)]⟩ "T"
        (some [("A", GoVal.other "true")])).1 = false := by
  exact ⟨rfl, rfl⟩

/-- Claim C5 (amended): a value whose runtime type is outside
{string, int32, int, int64, uint64, float64, SqlValue} aborts that
statement's generation — but via a runtime panic carrying
`renderInsertValue`'s message, which does identify the offending column, not
via a non-nil error return. -/
theorem C5_unsupported_type (g : Generator) (sch : Schema) (table : String)
    (d : List (String × GoVal)) (t : Table) (fm : List (String × Field))
    (k tdesc : String) (fl : Field)
    (ht : table ≠ "") (hT : alookup table sch.Tables = some t) (hF : t.Fields = some fm)
    (hl : alookup k fm = some fl) (hc : ¬(g.CallerSuppliesPK = true ∧ k = t.Primary))
    (hm : (k, GoVal.other tdesc) ∈ d) :
    (∃ m, (BindingInsert g sch table (some d)).1 = .error (.panicked m)) ∧
    renderInsertValue (some fl) (GoVal.other tdesc) =
      .error (.goErr ("renderInsertValue: unknown type " ++ tdesc ++
        " for the value of " ++ fl.Name)) := by
  constructor
  · have hm2 : (k, GoVal.other tdesc) ∈ setPKifNeeded g d t.Primary :=
      mem_setPKifNeeded g d t.Primary _ hm
    have hpe := processEntry_other_val g t.Primary fm k tdesc fl hl hc
    rcases coreBindingInsert_error_of_entry g (setPKifNeeded g d t.Primary) t.Primary fm
      (k, GoVal.other tdesc) _ hm2 hpe with ⟨m, hcore⟩
    exact ⟨m, BindingInsert_core_error g sch table d t fm _ ht hT hF hcore⟩
  · rfl

/-- Witness for C5_unsupported_type at the `bool`-valued column `A`. -/
theorem C5_unsupported_type_witness :
    (∃ m, (BindingInsert ⟨false⟩ ⟨[("T", ⟨"T", "ID", some [("A", ⟨"A", true⟩)]⟩)]⟩ "T"
        (some [("A", GoVal.other "true")])).1 = .error (.panicked m)) ∧
    renderInsertValue (some ⟨"A", true⟩) (GoVal.other "true") =
      .error (.goErr ("renderInsertValue: unknown type " ++ "true" ++
        " for the value of " ++ Field.Name ⟨"A", true⟩)) := by
  have h := C5_unsupported_type ⟨false⟩ ⟨[("T", ⟨"T", "ID", some [("A", ⟨"A", true⟩)]⟩)]⟩ "T"
    [("A", GoVal.other "true")] ⟨"T", "ID", some [("A", ⟨"A", true⟩)]⟩
    [("A", ⟨"A", true⟩)] "A" "true" ⟨"A", true⟩
    (by decide) rfl rfl rfl (by decide) (List.mem_singleton.mpr rfl)
  exact h

/-- Claim C8: `renderInsertValue` sends a `float64` on an is-number column to
its truncation toward zero (Go's `int64(num)`), a `float64` on any other
column to fixed six-decimal text that is in non-scientific shape, and a
`uint64` to its decimal text representation (all decimal digits). -/
theorem C8_value_rendering (fl : Field) (q : ℚ) (n : Nat) :
    (fl.IsNumber = true →
      renderInsertValue (some fl) (GoVal.f64 q) = .ok (.int (goTrunc q))) ∧
    (fl.IsNumber = false →
      renderInsertValue (some fl) (GoVal.f64 q) = .ok (.str (formatFixed6 q)) ∧
      fixedShape (formatFixed6 q) = true) ∧
    renderInsertValue (some fl) (GoVal.u64 n) = .ok (.str (natDecStr n)) ∧
    (natDecStr n).toList.all Char.isDigit = true := by
  refine ⟨?_, ?_, rfl, natDecStr_digits n⟩
  · intro hn
    simp [renderInsertValue, hn]
  · intro hn
    refine ⟨?_, fixedShape_formatFixed6 q⟩
    simp [renderInsertValue, hn]

/-- Witness for C8_value_rendering at q = -7/2 and n = 12. -/
theorem C8_value_rendering_witness :
    renderInsertValue (some ⟨"A", true⟩) (GoVal.f64 (-7/2)) =
      .ok (.int (goTrunc (-7/2))) ∧
    renderInsertValue (some ⟨"A", false⟩) (GoVal.f64 (-7/2)) =
      .ok (.str (formatFixed6 (-7/2))) ∧
    fixedShape (formatFixed6 (-7/2)) = true ∧
    renderInsertValue (some ⟨"A", true⟩) (GoVal.u64 12) = .ok (.str (natDecStr 12)) ∧
    natDecStr 12 = "12" := by
  have h1 := C8_value_rendering ⟨"A", true⟩ (-7/2) 12
  have h2 := C8_value_rendering ⟨"A", false⟩ (-7/2) 12
  exact ⟨h1.1 rfl, (h2.2.1 rfl).1, (h2.2.1 rfl).2, h1.2.2.1, by decide⟩

/-- Claim C9: `BindingInsert` mutates the caller's value map in place exactly
when `CallerSuppliesPK` is set, the identity column is absent, and generation
is actually reached (table known, map non-nil, field metadata present): the
entry `identity -> *SqlValue("SYS_GUID()")` is added before generation.  In
every other situation — identity present, flag unset, or any of the early
validation errors — the caller's map comes back unchanged. -/
theorem C9_map_mutation (g : Generator) (sch : Schema) (table : String)
    (d : List (String × GoVal)) (t : Table) (fm : List (String × Field))
    (ht : table ≠ "") (hT : alookup table sch.Tables = some t) (hF : t.Fields = some fm) :
    (g.CallerSuppliesPK = true → alookup t.Primary d = none →
      (BindingInsert g sch table (some d)).2 =
        some (d ++ [(t.Primary, GoVal.sqlValuePtr "SYS_GUID()")])) ∧
    (¬(g.CallerSuppliesPK = true ∧ alookup t.Primary d = none) →
      (BindingInsert g sch table (some d)).2 = some d) ∧
    (∀ (sch2 : Schema) (tb : String) (dd : Option (List (String × GoVal))),
      tb ≠ "" → alookup tb sch2.Tables = none → (BindingInsert g sch2 tb dd).2 = dd) ∧
    (∀ (sch2 : Schema) (dd : Option (List (String × GoVal))),
      (BindingInsert g sch2 "" dd).2 = dd) := by
  refine ⟨?_, ?_, ?_, ?_⟩
  · intro hg habs
    rw [BindingInsert_snd g sch table d t fm ht hT hF]
    unfold setPKifNeeded
    rw [if_pos ⟨hg, habs⟩]
  · intro hc
    rw [BindingInsert_snd g sch table d t fm ht hT hF]
    unfold setPKifNeeded
    rw [if_neg hc]
  · intro sch2 tb dd htb hT2
    unfold BindingInsert
    rw [if_neg htb]
    cases dd with
    | none => rfl
    | some d2 => simp only []; rw [hT2]
  · intro sch2 dd
    unfold BindingInsert
    rw [if_pos rfl]

/-- Witness for C9_map_mutation on a one-table schema: the map gains the
identity entry when the flag is set and the identity is absent, and is
unchanged when the identity is already present. -/
theorem C9_map_mutation_witness :
    (BindingInsert ⟨true⟩ ⟨[("T", ⟨"T", "ID", some [("A", ⟨"A", false⟩),
        ("ID", ⟨"ID", true⟩)]⟩)]⟩ "T" (some [("A", GoVal.str "x")])).2 =
      some ([("A", GoVal.str "x")] ++ [("ID", GoVal.sqlValuePtr "SYS_GUID()")]) ∧
    (BindingInsert ⟨true⟩ ⟨[("T", ⟨"T", "ID", some [("A", ⟨"A", false⟩),
        ("ID", ⟨"ID", true⟩)]⟩)]⟩ "T" (some [("ID", GoVal.str "k")])).2 =
      some [("ID", GoVal.str "k")] ∧
    (BindingInsert ⟨true⟩ ⟨[("T", ⟨"T", "ID", some [("A", ⟨"A", false⟩),
        ("ID", ⟨"ID", true⟩)]⟩)]⟩ "U" (some [("A", GoVal.str "x")])).2 =
      some [("A", GoVal.str "x")] := by
  have h1 := C9_map_mutation ⟨true⟩ ⟨[("T", ⟨"T", "ID", some [("A", ⟨"A", false⟩),
    ("ID", ⟨"ID", true⟩)]⟩)]⟩ "T" [("A", GoVal.str "x")]
    ⟨"T", "ID", some [("A", ⟨"A", false⟩), ("ID", ⟨"ID", true⟩)]⟩
    [("A", ⟨"A", false⟩), ("ID", ⟨"ID", true⟩)] (by decide) rfl rfl
  have h2 := C9_map_mutation ⟨true⟩ ⟨[("T", ⟨"T", "ID", some [("A", ⟨"A", false⟩),
    ("ID", ⟨"ID", true⟩)]⟩)]⟩ "T" [("ID", GoVal.str "k")]
    ⟨"T", "ID", some [("A", ⟨"A", false⟩), ("ID", ⟨"ID", true⟩)]⟩
    [("A", ⟨"A", false⟩), ("ID", ⟨"ID", true⟩)] (by decide) rfl rfl
  exact ⟨h1.1 rfl rfl, h2.2.1 (by decide),
    h1.2.2.1 ⟨[("T", ⟨"T", "ID", some [("A", ⟨"A", false⟩), ("ID", ⟨"ID", true⟩)]⟩)]⟩
      "U" (some [("A", GoVal.str "x")]) (by decide) rfl⟩

/-- A Go `context.Context` as the core sees it: either a context supplied by
some caller (tagged by an id) or the package-internal `context.TODO()`. -/
inductive GoCtx where
  | caller (n : Nat)
  | todo
deriving DecidableEq

def GoCtx.isCaller : GoCtx → Bool
  | .caller _ => true
  | .todo => false

/-- One database call issued by the core, tagged with the context it passed
(`PrepareContext` / `ExecContext`). -/
inductive DbOp where
  | prep (ctx : GoCtx)
  | exec (ctx : GoCtx)
deriving DecidableEq

def DbOp.ctxOf : DbOp → GoCtx
  | .prep c => c
  | .exec c => c

def DbOp.isPrep : DbOp → Bool
  | .prep _ => true
  | _ => false

def DbOp.isExec : DbOp → Bool
  | .exec _ => true
  | _ => false

/-- `orm.prepareAndExecSQL` from the source: prepares and executes one
statement.  The function takes no context parameter and passes
`context.TODO()` to both `PrepareContext` and `ExecContext`.  The driver's
outcomes are the `prepErr`/`execErr` parameters; errors are wrapped with the
statement text as in the source (`errors.Wrap` renders "context: cause").
The second component is the trace of database calls with the contexts they
received. -/
def prepareAndExecSQL (prepErr execErr : Option String) (sqlStr : String) :
    Except String Unit × List DbOp :=
  match prepErr with
  | some e =>
    (.error ("prepareAndExecSQL/PrepareContext (" ++ sqlStr ++ "): " ++ e), [.prep .todo])
  | none =>
    match execErr with
    | some e =>
      (.error ("prepareAndExecSQL/ExecContext (" ++ sqlStr ++ "): " ++ e),
        [.prep .todo, .exec .todo])
    | none => (.ok (), [.prep .todo, .exec .todo])

/-- `object.Object` as `orm.Delete` touches it: type name, column values,
change-tracking set, saved flag, and child collections keyed by child table
name. -/
inductive DynObject where
  | mk (otype : String) (kv : List (String × GoVal)) (changed : List String)
      (saved : Bool) (children : List (String × List DynObject))

def DynObject.otype : DynObject → String
  | .mk t _ _ _ _ => t

def DynObject.kv : DynObject → List (String × GoVal)
  | .mk _ k _ _ _ => k

def DynObject.changed : DynObject → List String
  | .mk _ _ ch _ _ => ch

def DynObject.saved : DynObject → Bool
  | .mk _ _ _ s _ => s

def DynObject.children : DynObject → List (String × List DynObject)
  | .mk _ _ _ _ c => c

/-- Modelled from the spec: `object.Object.SetSaved` (the object package is
not among the analysed sources) sets the persisted flag, per the record
model of spec section 4.2. -/
def DynObject.setSaved : DynObject → Bool → DynObject
  | .mk t k ch _ c, b => .mk t k ch b c

/-- Modelled from the spec: `object.Object.ResetChangedFields` clears the
change-tracking set, per the record model of spec section 4.2
(`markSaved` clears the change-set). -/
def DynObject.resetChangedFields : DynObject → DynObject
  | .mk t k _ s c => .mk t k [] s c

/-- `orm.Delete` from the source.  External collaborators appear as outcome
parameters: `bres` is `BindingDelete`'s result (that generator is not among
the analysed sources), `prepErr` is the statement-preparation outcome
(`stmtFromDbOrTx` is not among the analysed sources either; modelled from the
spec: it propagates the caller context unmodified into the delegated
`PrepareContext` call), `execErr` the `ExecContext` outcome and `rres` the
`RowsAffected` outcome.  On success the object is marked saved and its
changed-fields set is reset, exactly as the source's
`obj.SetSaved(true); obj.ResetChangedFields()`.  The second component is the
trace of database calls with the contexts they received. -/
def Delete (sch : Schema) (bres : Except String (String × List BindVal))
    (prepErr execErr : Option String) (rres : Except String Int)
    (ctx : GoCtx) (obj : DynObject) :
    Except String (Int × DynObject) × List DbOp :=
  match alookup obj.otype sch.Tables with
  | none => (.error ("Delete: unknown object table " ++ obj.otype), [])
  | some _ =>
    match bres with
    | .error e => (.error e, [])
    | .ok _ =>
      match prepErr with
      | some e => (.error e, [.prep ctx])
      | none =>
        match execErr with
        | some e => (.error ("Delete: " ++ e), [.prep ctx, .exec ctx])
        | none =>
          match rres with
          | .error e => (.error e, [.prep ctx, .exec ctx])
          | .ok n => (.ok (n, (obj.setSaved true).resetChangedFields), [.prep ctx, .exec ctx])

/-- Outcome of the transaction body `txFunc`: normal return of nil, normal
return of a non-nil error, or a panic. -/
inductive TxOutcome where
  | ok
  | err (e : String)
  | panics (msg : String)
deriving DecidableEq

inductive TxAction where
  | beginTx
  | runTxFunc
  | rollback
  | commit
deriving DecidableEq

/-- `orm.Transact` from the source.  The Go function's result is an
UNNAMED `error`, so the assignments the deferred closure makes to the local
`err` variable after `recover()` or after `tx.Commit()` never reach the
caller: a recovered panic and a failed commit both leave the returned value
at what the `return` statement (or the panic) fixed — nil.  `commitErr` and
`rollbackErr` are the (log-only) outcomes of `tx.Commit()`/`tx.Rollback()`.
The second component is the trace of transaction actions. -/
def Transact (beginErr : Option String) (tf : TxOutcome)
    (_commitErr _rollbackErr : Option String) : Option String × List TxAction :=
  match beginErr with
  | some e => (some e, [.beginTx])
  | none =>
    match tf with
    | .err e => (some e, [.beginTx, .runTxFunc, .rollback])
    | .panics _ => (none, [.beginTx, .runTxFunc, .rollback])
    | .ok => (none, [.beginTx, .runTxFunc, .commit])

/-- Claim C6, counterexample to the frozen wording: after a successful
`Delete` of a record whose change-set is `["Name"]`, the change-set comes
back empty — `Delete` calls `ResetChangedFields()` in addition to
`SetSaved(true)`, so the saved flag is not the only record state the
operation changes. -/
theorem C6_counterexample :
    (Delete ⟨[("people", ⟨"people", "PersonID", none⟩)]⟩ (.ok ("D", [])) none none (.ok 1)
        (GoCtx.caller 0)
        (DynObject.mk "people" [("Name", GoVal.str "Joe")] ["Name"] true [])).1 =
      .ok (1, DynObject.mk "people" [("Name", GoVal.str "Joe")] [] true []) ∧
    (["Name"] : List String) ≠ [] := by
  exact ⟨rfl, by decide⟩

/-- Claim C6 (amended): after a successful `Delete`, the record's column
values, child collections and type are unchanged; it is marked saved AND its
changed-fields set is cleared — those two are the only record state the
operation changes. -/
theorem C6_delete_state (sch : Schema) (bres : Except String (String × List BindVal))
    (prepErr execErr : Option String) (rres : Except String Int) (ctx : GoCtx)
    (obj : DynObject) (n : Int) (obj2 : DynObject)
    (h : (Delete sch bres prepErr execErr rres ctx obj).1 = .ok (n, obj2)) :
    obj2.otype = obj.otype ∧ obj2.kv = obj.kv ∧ obj2.children = obj.children ∧
    obj2.saved = true ∧ obj2.changed = [] := by
  unfold Delete at h
  cases hT : alookup obj.otype sch.Tables with
  | none => rw [hT] at h; cases h
  | some t =>
    rw [hT] at h
    simp only [] at h
    cases bres with
    | error e => simp only [] at h; cases h
    | ok x =>
      simp only [] at h
      cases prepErr with
      | some e => simp only [] at h; cases h
      | none =>
        simp only [] at h
        cases execErr with
        | some e => simp only [] at h; cases h
        | none =>
          simp only [] at h
          cases rres with
          | error e => simp only [] at h; cases h
          | ok n2 =>
            simp only [] at h
            have h2 := Except.ok.inj h
            have hobj := congrArg Prod.snd h2
            simp only [] at hobj
            rw [← hobj]
            cases obj with
            | mk t2 k ch s c => exact ⟨rfl, rfl, rfl, rfl, rfl⟩

/-- Witness for C6_delete_state: a successful delete of a dirty record. -/
theorem C6_delete_state_witness :
    DynObject.otype (DynObject.mk "people" [("Name", GoVal.str "Joe")] [] true []) =
      DynObject.otype (DynObject.mk "people" [("Name", GoVal.str "Joe")] ["Name"] true []) ∧
    DynObject.kv (DynObject.mk "people" [("Name", GoVal.str "Joe")] [] true []) =
      DynObject.kv (DynObject.mk "people" [("Name", GoVal.str "Joe")] ["Name"] true []) ∧
    DynObject.children (DynObject.mk "people" [("Name", GoVal.str "Joe")] [] true []) =
      DynObject.children (DynObject.mk "people" [("Name", GoVal.str "Joe")] ["Name"] true []) ∧
    DynObject.saved (DynObject.mk "people" [("Name", GoVal.str "Joe")] [] true []) = true ∧
    DynObject.changed (DynObject.mk "people" [("Name", GoVal.str "Joe")] [] true []) = [] := by
  exact C6_delete_state ⟨[("people", ⟨"people", "PersonID", none⟩)]⟩ (.ok ("D", []))
    none none (.ok 1) (GoCtx.caller 0)
    (DynObject.mk "people" [("Name", GoVal.str "Joe")] ["Name"] true []) 1
    (DynObject.mk "people" [("Name", GoVal.str "Joe")] [] true []) rfl

/-- Claim C7, counterexample to the frozen wording: `prepareAndExecSQL` has
no context parameter at all — both of its database calls receive
`context.TODO()`, never a caller-supplied context. -/
theorem C7_counterexample :
    (prepareAndExecSQL none none "SELECT 1 FROM DUAL").2 =
      [DbOp.prep GoCtx.todo, DbOp.exec GoCtx.todo] ∧
    ((prepareAndExecSQL none none "SELECT 1 FROM DUAL").2.all
      (fun op => GoCtx.isCaller op.ctxOf)) = false := by
  exact ⟨rfl, rfl⟩

/-- Claim C7 (amended): `Delete` passes the caller-supplied context
unmodified to every database call it makes (one preparation, one execution,
each at most once — no retries and no internal timeout), while
`prepareAndExecSQL` passes `context.TODO()` to its (at most one each)
preparation and execution calls instead of any caller context. -/
theorem C7_context_propagation (ctx : GoCtx) (sch : Schema)
    (bres : Except String (String × List BindVal)) (prepErr execErr : Option String)
    (rres : Except String Int) (obj : DynObject) (pe ee : Option String) (sqlS : String) :
    ((Delete sch bres prepErr execErr rres ctx obj).2.all
      (fun op => op.ctxOf == ctx)) = true ∧
    ((Delete sch bres prepErr execErr rres ctx obj).2.countP (fun op => op.isPrep)) ≤ 1 ∧
    ((Delete sch bres prepErr execErr rres ctx obj).2.countP (fun op => op.isExec)) ≤ 1 ∧
    ((prepareAndExecSQL pe ee sqlS).2.all (fun op => op.ctxOf == GoCtx.todo)) = true ∧
    ((prepareAndExecSQL pe ee sqlS).2.countP (fun op => op.isPrep)) ≤ 1 ∧
    ((prepareAndExecSQL pe ee sqlS).2.countP (fun op => op.isExec)) ≤ 1 := by
  unfold Delete prepareAndExecSQL
  cases halo : alookup obj.otype sch.Tables <;>
    cases bres <;> cases prepErr <;> cases execErr <;> cases rres <;>
      cases pe <;> cases ee <;>
        simp [DbOp.ctxOf, DbOp.isPrep, DbOp.isExec, List.countP_cons, List.countP_nil]

/-- Claim C10: `Transact` returns a non-nil error exactly when `BeginTx`
fails or `txFunc` returns a non-nil error; in the latter case that same
error is returned, the transaction is rolled back and never committed.  When
`txFunc` panics the panic is recovered, the transaction is rolled back, and
`Transact` returns nil (the function's result is an unnamed `error`, so the
deferred closure's assignment never reaches the caller); when `txFunc`
succeeds but the commit fails, the failure is logged only and `Transact`
likewise returns nil. -/
theorem C10_transact (b : Option String) (tf : TxOutcome) (c r : Option String) :
    ((Transact b tf c r).1.isSome = true →
      (∃ e, b = some e ∧ (Transact b tf c r).1 = some e) ∨
      (∃ e, tf = TxOutcome.err e ∧ (Transact b tf c r).1 = some e)) ∧
    (∀ e, b = none → tf = TxOutcome.err e →
      (Transact b tf c r).1 = some e ∧ TxAction.rollback ∈ (Transact b tf c r).2 ∧
      TxAction.commit ∉ (Transact b tf c r).2) ∧
    (∀ m, b = none → tf = TxOutcome.panics m →
      (Transact b tf c r).1 = none ∧ TxAction.rollback ∈ (Transact b tf c r).2 ∧
      TxAction.commit ∉ (Transact b tf c r).2) ∧
    (b = none → tf = TxOutcome.ok →
      (Transact b tf c r).1 = none ∧ TxAction.commit ∈ (Transact b tf c r).2) := by
  refine ⟨?_, ?_, ?_, ?_⟩
  · intro hs
    cases b with
    | some e => exact Or.inl ⟨e, rfl, rfl⟩
    | none =>
      cases tf with
      | ok => simp [Transact] at hs
      | err e => exact Or.inr ⟨e, rfl, rfl⟩
      | panics m => simp [Transact] at hs
  · rintro e rfl rfl
    refine ⟨rfl, ?_, ?_⟩ <;> simp [Transact]
  · rintro m rfl rfl
    refine ⟨rfl, ?_, ?_⟩ <;> simp [Transact]
  · rintro rfl rfl
    refine ⟨rfl, ?_⟩
    simp [Transact]

/-- Witness for C10_transact: a failing `txFunc` (error returned, rolled
back, not committed), a panicking `txFunc` (nil returned), and a failing
commit after success (nil returned). -/
theorem C10_transact_witness :
    (Transact none (TxOutcome.err "boom") none none).1 = some "boom" ∧
    TxAction.rollback ∈ (Transact none (TxOutcome.err "boom") none none).2 ∧
    TxAction.commit ∉ (Transact none (TxOutcome.err "boom") none none).2 ∧
    (Transact none (TxOutcome.panics "p") none none).1 = none ∧
    (Transact none TxOutcome.ok (some "commit failed") none).1 = none ∧
    TxAction.commit ∈ (Transact none TxOutcome.ok (some "commit failed") none).2 := by
  have h1 := C10_transact none (TxOutcome.err "boom") none none
  have h2 := C10_transact none (TxOutcome.panics "p") none none
  have h3 := C10_transact none TxOutcome.ok (some "commit failed") none
  refine ⟨(h1.2.1 "boom" rfl rfl).1, (h1.2.1 "boom" rfl rfl).2.1,
    (h1.2.1 "boom" rfl rfl).2.2, (h2.2.2.1 "p" rfl rfl).1,
    (h3.2.2.2 rfl rfl).1, (h3.2.2.2 rfl rfl).2⟩

end Dyndao
